import Mathlib

/-!
Shallow embedding of the chip8-rs CHIP-8 virtual machine (src/lib.rs,
src/keys.rs) for checking its natural-language specification.

Conventions of the embedding:
* Machine integers are `Nat` with explicit truncation: u8 arithmetic is
  `% 256`, u16 arithmetic is `% 65536`, u64 values are `% 2 ^ 64`.
  Wrapping (release-profile) semantics is used for Rust's `+`, `-`, `*`
  and shifts, matching the deployed behavior of the crate.
* Rust slice indexing panics out of bounds; `execute` therefore returns
  `Option VM`, with `none` standing for a panic (index out of bounds, or
  a failed `unwrap`).
* The pressed-key set (a `HashSet<Key>` in the source) is modelled as a
  `List Key`; `HashSet::difference` becomes `diffKeys`, and the arbitrary
  element `nth(0)` picked by `Keyboard::wait` becomes the head of that
  difference list.
* The entropy source (`rand::thread_rng`) is an external stream, modelled
  by the fields `rng : Nat -> Nat` and `rngIdx`; the blocking
  `Keyboard::wait()` call inside `LD4` is abstracted by the field
  `keyWait`, the key the external environment eventually supplies.
-/

/-- The 16-symbol key alphabet of src/keys.rs. -/
inductive Key where
  | Key0 | Key1 | Key2 | Key3
  | Key4 | Key5 | Key6 | Key7
  | Key8 | Key9 | KeyA | KeyB
  | KeyC | KeyD | KeyE | KeyF
deriving DecidableEq

/-- `Key::to_num` (derived `ToPrimitive`): the discriminant of the variant. -/
def Key.toNum : Key → Nat
  | .Key0 => 0
  | .Key1 => 1
  | .Key2 => 2
  | .Key3 => 3
  | .Key4 => 4
  | .Key5 => 5
  | .Key6 => 6
  | .Key7 => 7
  | .Key8 => 8
  | .Key9 => 9
  | .KeyA => 10
  | .KeyB => 11
  | .KeyC => 12
  | .KeyD => 13
  | .KeyE => 14
  | .KeyF => 15

/-- `Key::from_num` (derived `FromPrimitive`): inverse lookup by discriminant. -/
def Key.fromNum : Nat → Option Key
  | 0 => some .Key0
  | 1 => some .Key1
  | 2 => some .Key2
  | 3 => some .Key3
  | 4 => some .Key4
  | 5 => some .Key5
  | 6 => some .Key6
  | 7 => some .Key7
  | 8 => some .Key8
  | 9 => some .Key9
  | 10 => some .KeyA
  | 11 => some .KeyB
  | 12 => some .KeyC
  | 13 => some .KeyD
  | 14 => some .KeyE
  | 15 => some .KeyF
  | _ => none

/-- `Keyboard::is_pressed`: membership in the pressed set (`HashSet::contains`). -/
def is_pressed (kb : List Key) (k : Key) : Bool :=
  match kb with
  | [] => false
  | a :: t => if a = k then true else is_pressed t k

/-- `HashSet::difference` as used in `Keyboard::wait`: the keys of `current`
that are absent from `baseline`. -/
def diffKeys (current baseline : List Key) : List Key :=
  match current with
  | [] => []
  | a :: t => if is_pressed baseline a then diffKeys t baseline
              else a :: diffKeys t baseline

/-- The `wait_until` predicate of `Keyboard::wait`: the difference between the
pressed set `current` and the baseline snapshot is non-empty. -/
def waitUnblocked (baseline current : List Key) : Bool :=
  !(diffKeys current baseline).isEmpty

/-- The key `Keyboard::wait` returns once unblocked: `nth(0)` of the
difference set, modelled as the head of the difference list. -/
def waitResult (baseline current : List Key) : Option Key :=
  (diffKeys current baseline).head?

/-- The decoded instruction set of src/lib.rs (`enum Instruction`); operand
fields are u8 (register indices, bytes, nibbles) or u16 (addresses), carried
as `Nat` and truncated where the code would truncate. -/
inductive Instruction where
  | SYS (a : Nat)
  | CLS
  | RET
  | JP (a : Nat)
  | CALL (a : Nat)
  | SE (x b : Nat)
  | SNE (x b : Nat)
  | SE2 (x y : Nat)
  | LD (x b : Nat)
  | ADD (x b : Nat)
  | LD2 (x y : Nat)
  | OR (x y : Nat)
  | AND (x y : Nat)
  | XOR (x y : Nat)
  | ADD2 (x y : Nat)
  | SUB (x y : Nat)
  | SHR (x y : Nat)
  | SUBN (x y : Nat)
  | SHL (x y : Nat)
  | SNE2 (x y : Nat)
  | LDI (a : Nat)
  | JPV0 (a : Nat)
  | RND (x b : Nat)
  | DRW (x y n : Nat)
  | SKP (x : Nat)
  | SKNP (x : Nat)
  | LD3 (x : Nat)
  | LD4 (x : Nat)
  | LD5 (x : Nat)
  | LD6 (x : Nat)
  | ADD3 (x : Nat)
  | LD7 (x : Nat)

/-- The VM state of src/lib.rs (`struct VM`). Array fields are index
functions; indices are bounds-checked at every use, mirroring Rust's
panicking slice indexing. `rng`/`rngIdx` model the external entropy stream
consumed by `RND`; `keyWait` models the key that the blocking
`Keyboard::wait()` call of `LD4` eventually receives. -/
structure VM where
  memory : Nat → Nat
  stack : Nat → Nat
  display : Nat → Nat
  gen_registers : Nat → Nat
  reg_i : Nat
  reg_pc : Nat
  reg_sp : Nat
  reg_delay : Nat
  reg_sound : Nat
  rng : Nat → Nat
  rngIdx : Nat
  keyboard : List Key
  keyWait : Key

/-- `fn digit`: `(digit * 5) as usize`, a u8 multiply that wraps mod 256. -/
def digit (d : Nat) : Nat :=
  (d * 5) % 256

/-- `fn create_sprite_mask`: `(sprite as u64) << (64 - 8 - x)`. The shift
amount `56 - x` is u8 arithmetic (wrapping mod 256) and the u64 shift masks
its amount mod 64 (release semantics); the result is a u64 value. -/
def create_sprite_mask (sprite x : Nat) : Nat :=
  (sprite <<< (((56 + 256 - x % 256) % 256) % 64)) % 2 ^ 64

/-- The 80 font bytes written by `fn create_memory` at addresses
`digit d + j` = `5 * d + j` for digits 0..15, rows 0..4. -/
def fontData : List Nat :=
  [0xF0, 0x90, 0x90, 0x90, 0xF0,
   0x20, 0x60, 0x20, 0x20, 0x70,
   0xF0, 0x10, 0xF0, 0x80, 0xF0,
   0xF0, 0x10, 0xF0, 0x10, 0xF0,
   0x90, 0x90, 0xF0, 0x10, 0x10,
   0xF0, 0x80, 0xF0, 0x10, 0xF0,
   0xF0, 0x80, 0xF0, 0x90, 0xF0,
   0xF0, 0x10, 0x20, 0x40, 0x40,
   0xF0, 0x90, 0xF0, 0x90, 0xF0,
   0xF0, 0x90, 0xF0, 0x10, 0xF0,
   0xF0, 0x90, 0xF0, 0x90, 0x90,
   0xE0, 0x90, 0xE0, 0x90, 0xE0,
   0xF0, 0x80, 0x80, 0x80, 0xF0,
   0xE0, 0x90, 0x90, 0x90, 0xE0,
   0xF0, 0x80, 0xF0, 0x80, 0xF0,
   0xF0, 0x80, 0xF0, 0x80, 0x80]

/-- `fn create_memory`: 4096 zeroed bytes with the font table at 0..79. -/
def create_memory : Nat → Nat :=
  fun a => if a < 80 then fontData.getD a 0 else 0

/-- `VM::new`: zeroed registers, stack and display, font-initialized memory.
The external entropy stream and wait-key oracle are fixed to zero values. -/
def VM.new : VM :=
  { memory := create_memory
    stack := fun _ => 0
    display := fun _ => 0
    gen_registers := fun _ => 0
    reg_i := 0
    reg_pc := 0
    reg_sp := 0
    reg_delay := 0
    reg_sound := 0
    rng := fun _ => 0
    rngIdx := 0
    keyboard := []
    keyWait := Key.Key0 }

/-- One iteration of the `DRW` loop body (src/lib.rs lines 244-256), acting
on the pair (display, gen_registers). Note that the source reads
`self.display[x as usize]` — the register-index operand `x`, not the target
row `vy + i` — XORs the sprite mask into it, recomputes VF from that XOR,
and stores the result at row `(vy + i) % 256` (u8 addition). -/
def drwStep (mem : Nat → Nat) (ireg x vx vy i : Nat)
    (st : (Nat → Nat) × (Nat → Nat)) : Option ((Nat → Nat) × (Nat → Nat)) :=
  if ireg + i < 4096 then
    let data := mem (ireg + i)
    let sprite_row := create_sprite_mask data vx
    if x < 32 then
      let result := (st.1 x) ^^^ sprite_row
      let regs1 := Function.update st.2 15
        (if sprite_row &&& result = sprite_row then 0 else 1)
      if (vy + i) % 256 < 32 then
        some (Function.update st.1 ((vy + i) % 256) result, regs1)
      else none
    else none
  else none

/-- `VM::execute` (src/lib.rs lines 96-305), one instruction step.
`none` models a Rust panic: slice index out of bounds or a failed
`unwrap` of `Key::from_num`. All wrapping follows release semantics. -/
def execute (instr : Instruction) (vm : VM) : Option VM :=
  match instr with
  | .CLS =>
      some { vm with display := fun _ => 0,
                     reg_pc := (vm.reg_pc + 1) % 65536 }
  | .RET =>
      if vm.reg_sp < 16 then
        some { vm with reg_pc := vm.stack vm.reg_sp,
                       reg_sp := (vm.reg_sp + 255) % 256 }
      else none
  | .JP a =>
      some { vm with reg_pc := a % 65536 }
  | .CALL a =>
      if (vm.reg_sp + 1) % 256 < 16 then
        some { vm with reg_sp := (vm.reg_sp + 1) % 256,
                       stack := Function.update vm.stack
                         ((vm.reg_sp + 1) % 256) vm.reg_pc,
                       reg_pc := a % 65536 }
      else none
  | .SE x b =>
      if x < 16 then
        some { vm with reg_pc := (vm.reg_pc +
          (if vm.gen_registers x = b % 256 then 2 else 1)) % 65536 }
      else none
  | .SNE x b =>
      if x < 16 then
        some { vm with reg_pc := (vm.reg_pc +
          (if vm.gen_registers x = b % 256 then 1 else 2)) % 65536 }
      else none
  | .SE2 x y =>
      if x < 16 ∧ y < 16 then
        some { vm with reg_pc := (vm.reg_pc +
          (if vm.gen_registers x = vm.gen_registers y then 2 else 1)) % 65536 }
      else none
  | .LD x b =>
      if x < 16 then
        some { vm with gen_registers := Function.update vm.gen_registers x (b % 256),
                       reg_pc := (vm.reg_pc + 1) % 65536 }
      else none
  | .ADD x b =>
      if x < 16 then
        some { vm with gen_registers := Function.update vm.gen_registers x
                         ((vm.gen_registers x + b) % 256),
                       reg_pc := (vm.reg_pc + 1) % 65536 }
      else none
  | .LD2 x y =>
      if x < 16 ∧ y < 16 then
        some { vm with gen_registers := Function.update vm.gen_registers x
                         (vm.gen_registers y),
                       reg_pc := (vm.reg_pc + 1) % 65536 }
      else none
  | .OR x y =>
      if x < 16 ∧ y < 16 then
        some { vm with gen_registers := Function.update vm.gen_registers x
                         (vm.gen_registers x ||| vm.gen_registers y),
                       reg_pc := (vm.reg_pc + 1) % 65536 }
      else none
  | .AND x y =>
      if x < 16 ∧ y < 16 then
        some { vm with gen_registers := Function.update vm.gen_registers x
                         (vm.gen_registers x &&& vm.gen_registers y),
                       reg_pc := (vm.reg_pc + 1) % 65536 }
      else none
  | .XOR x y =>
      if x < 16 ∧ y < 16 then
        some { vm with gen_registers := Function.update vm.gen_registers x
                         (vm.gen_registers x ^^^ vm.gen_registers y),
                       reg_pc := (vm.reg_pc + 1) % 65536 }
      else none
  | .ADD2 x y =>
      if x < 16 ∧ y < 16 then
        let result := vm.gen_registers x + vm.gen_registers y
        if 255 < result then
          let regsA := Function.update (Function.update vm.gen_registers 15 1) x
            (result % 256)
          some { vm with gen_registers := regsA,
                         reg_pc := (vm.reg_pc + 1) % 65536 }
        else
          let regsA := Function.update (Function.update vm.gen_registers x
            (result % 256)) 15 0
          some { vm with gen_registers := regsA,
                         reg_pc := (vm.reg_pc + 1) % 65536 }
      else none
  | .SUB x y =>
      if x < 16 ∧ y < 16 then
        if vm.gen_registers y < vm.gen_registers x then
          let regsA := Function.update (Function.update vm.gen_registers x
            (vm.gen_registers x - vm.gen_registers y)) 15 1
          some { vm with gen_registers := regsA,
                         reg_pc := (vm.reg_pc + 1) % 65536 }
        else
          let regsA := Function.update (Function.update vm.gen_registers x
            (vm.gen_registers y - vm.gen_registers x)) 15 0
          some { vm with gen_registers := regsA,
                         reg_pc := (vm.reg_pc + 1) % 65536 }
      else none
  | .SHR x _ =>
      if x < 16 then
        let regs1 := Function.update vm.gen_registers 15
          (if vm.gen_registers x % 2 = 0 then 0 else 1)
        some { vm with gen_registers := Function.update regs1 x (regs1 x / 2),
                       reg_pc := (vm.reg_pc + 1) % 65536 }
      else none
  | .SUBN x y =>
      if x < 16 ∧ y < 16 then
        if vm.gen_registers x < vm.gen_registers y then
          let regsA := Function.update (Function.update vm.gen_registers x
            (vm.gen_registers y - vm.gen_registers x)) 15 1
          some { vm with gen_registers := regsA,
                         reg_pc := (vm.reg_pc + 1) % 65536 }
        else
          let regsA := Function.update (Function.update vm.gen_registers x
            (vm.gen_registers x - vm.gen_registers y)) 15 0
          some { vm with gen_registers := regsA,
                         reg_pc := (vm.reg_pc + 1) % 65536 }
      else none
  | .SHL x _ =>
      if x < 16 then
        let regs1 := Function.update vm.gen_registers 15
          (if 128 ≤ vm.gen_registers x then 1 else 0)
        some { vm with gen_registers := Function.update regs1 x ((regs1 x * 2) % 256),
                       reg_pc := (vm.reg_pc + 1) % 65536 }
      else none
  | .SNE2 x y =>
      if x < 16 ∧ y < 16 then
        some { vm with reg_pc := (vm.reg_pc +
          (if vm.gen_registers x = vm.gen_registers y then 1 else 2)) % 65536 }
      else none
  | .LDI a =>
      some { vm with reg_i := a % 65536,
                     reg_pc := (vm.reg_pc + 1) % 65536 }
  | .JPV0 a =>
      some { vm with reg_pc := (a % 65536 + vm.gen_registers 0) % 65536 }
  | .RND x b =>
      if x < 16 then
        some { vm with gen_registers := Function.update vm.gen_registers x
                         ((vm.rng vm.rngIdx % 256) &&& (b % 256)),
                       rngIdx := vm.rngIdx + 1,
                       reg_pc := (vm.reg_pc + 1) % 65536 }
      else none
  | .DRW x y n =>
      if x < 16 ∧ y < 16 then
        match (List.range (n % 256)).foldlM
            (fun st i => drwStep vm.memory vm.reg_i x
              (vm.gen_registers x) (vm.gen_registers y) i st)
            (vm.display, vm.gen_registers) with
        | some (disp, regs) =>
            some { vm with display := disp, gen_registers := regs,
                           reg_pc := (vm.reg_pc + 1) % 65536 }
        | none => none
      else none
  | .SKP x =>
      if x < 16 then
        match Key.fromNum (vm.gen_registers x) with
        | some k =>
            some { vm with reg_pc := (vm.reg_pc +
              (if is_pressed vm.keyboard k then 2 else 1)) % 65536 }
        | none => none
      else none
  | .SKNP x =>
      if x < 16 then
        match Key.fromNum (vm.gen_registers x) with
        | some k =>
            some { vm with reg_pc := (vm.reg_pc +
              (if is_pressed vm.keyboard k then 1 else 2)) % 65536 }
        | none => none
      else none
  | .LD3 x =>
      if x < 16 then
        some { vm with gen_registers := Function.update vm.gen_registers x
                         vm.reg_delay,
                       reg_pc := (vm.reg_pc + 1) % 65536 }
      else none
  | .LD4 x =>
      if x < 16 then
        some { vm with gen_registers := Function.update vm.gen_registers x
                         vm.keyWait.toNum,
                       reg_pc := (vm.reg_pc + 1) % 65536 }
      else none
  | .LD5 x =>
      if x < 16 then
        some { vm with reg_delay := vm.gen_registers x,
                       reg_pc := (vm.reg_pc + 1) % 65536 }
      else none
  | .LD6 x =>
      if x < 16 then
        some { vm with reg_sound := vm.gen_registers x,
                       reg_pc := (vm.reg_pc + 1) % 65536 }
      else none
  | .ADD3 x =>
      if x < 16 then
        some { vm with reg_i := (vm.reg_i + vm.gen_registers x) % 65536,
                       reg_pc := (vm.reg_pc + 1) % 65536 }
      else none
  | .LD7 x =>
      if x < 16 then
        some { vm with reg_i := digit (vm.gen_registers x),
                       reg_pc := (vm.reg_pc + 1) % 65536 }
      else none
  | .SYS _ => some vm

/-- Concrete state for the DRW row-source check: V0 = 0 (column), V1 = 5
(row), I = 0x200, sprite byte 0x80 at 0x200, display row 5 lit (bit 0),
display row 0 clear. -/
def vmC1 : VM :=
  { VM.new with
      memory := Function.update VM.new.memory 0x200 0x80,
      gen_registers := Function.update VM.new.gen_registers 1 5,
      display := Function.update VM.new.display 5 1,
      reg_i := 0x200 }

/-- Concrete state for the DRW collision check: V0 = 0, V1 = 5, I = 0x200,
sprite byte 0xFF at 0x200, display fully clear. -/
def vmC2 : VM :=
  { VM.new with
      memory := Function.update VM.new.memory 0x200 0xFF,
      gen_registers := Function.update VM.new.gen_registers 1 5,
      reg_i := 0x200 }

/-- Concrete state for the LD F,Vx check: V1 = 16 (a value with a non-zero
high nibble). -/
def vmC6 : VM :=
  { VM.new with gen_registers := Function.update VM.new.gen_registers 1 16 }

/-- Concrete state for the ADD2-into-VF check: VF = 200, V1 = 100, so the
9-bit sum 300 overflows. -/
def vmC9 : VM :=
  { VM.new with gen_registers := Function.update (Function.update VM.new.gen_registers 15 200) 1 100 }

/-- Claim C1 (code_bug evidence): on `vmC1`, `DRW V0,V1,1` with Vx = 0,
Vy = 5 stores `display[0] XOR mask` = `2 ^ 63` into row 5, although row 5's
previous contents were 1, so the specified value
`display[5] XOR mask = 2 ^ 63 + 1` is not produced: the code XORs the
sprite row against `display[x]` (the register-index operand) instead of
`display[Vy + i]`. -/
theorem c1_drw_failing_input :
    ((execute (.DRW 0 1 1) vmC1).map (fun v => v.display 5) = some (2 ^ 63))
      ∧ Nat.xor (vmC1.display 5) (create_sprite_mask 0x80 0) = 2 ^ 63 + 1 := by
  decide

/-- Claim C2 (code_bug evidence): on `vmC2`, drawing the sprite byte 0xFF at
column 0, row 5 twice in a row leaves VF = 0 and row 5 still fully lit
(`0xFF <<< 56`) after the second draw, although the second draw should have
cleared every pixel it set and reported a collision (VF = 1): the collision
test reads `display[x]` (the register-index operand) rather than the target
row, and VF is recomputed from scratch on every sprite row. -/
theorem c2_drw_failing_input :
    (((execute (.DRW 0 1 1) vmC2).bind (fun v => execute (.DRW 0 1 1) v)).map
        (fun v => (v.gen_registers 15, v.display 5)))
      = some (0, 0xFF <<< 56) := by
  decide

/-- Claim C3 (code_bug evidence): `RET` on an empty stack (SP = 0) silently
wraps the u8 stack pointer to 255 instead of raising a stack-discipline
fault, and `CALL` with a full stack (SP = 15) dies on the generic
out-of-bounds access `stack[16]` (modelled `none`) rather than a distinct
stack fault. -/
theorem c3_stack_failing_input :
    ((execute .RET { VM.new with reg_sp := 0 }).map (fun v => v.reg_sp) = some 255)
      ∧ (execute (.CALL 0x300) { VM.new with reg_sp := 15 }).isNone = true := by
  decide

/-- Claim C4 (counterexample): executing `SYS 1` on the fresh VM leaves the
program counter at 0; it does not advance to `(0 + 1) % 65536 = 1` as the
claim demands. -/
theorem c4_counterexample :
    ((execute (.SYS 1) VM.new).map (fun v => v.reg_pc) = some 0)
      ∧ (VM.new.reg_pc + 1) % 65536 = 1 ∧ (0 : Nat) ≠ 1 := by
  decide

/-- Claim C4 (amended): `SYS` falls into the wildcard match arm, which does
nothing at all — the whole VM state, the program counter included, is
returned unchanged. -/
theorem c4_sys_is_total_noop (a : Nat) (vm : VM) :
    execute (.SYS a) vm = some vm :=
  rfl

/-- Claim C5 (counterexample): `ADD V15,1` on the fresh VM (VF = 0) leaves
VF = 1, because V15 is itself the destination register — so "leaves VF
unchanged" fails for x = 0xF. -/
theorem c5_counterexample :
    ((execute (.ADD 15 1) VM.new).map (fun v => v.gen_registers 15) = some 1)
      ∧ VM.new.gen_registers 15 = 0 ∧ (1 : Nat) ≠ 0 := by
  decide

/-- Claim C5 (amended): `ADD Vx,byte` stores `(Vx + b) mod 256` into Vx and
advances PC by one slot (mod 2^16); no carry flag is written, so VF is
unchanged whenever x ≠ 0xF (when x = 0xF the destination itself is VF). -/
theorem c5_add_immediate (vm : VM) (x b : Nat) (hx : x < 16) :
    ∃ vm', execute (.ADD x b) vm = some vm'
      ∧ vm'.gen_registers x = (vm.gen_registers x + b) % 256
      ∧ vm'.reg_pc = (vm.reg_pc + 1) % 65536
      ∧ (x ≠ 15 → vm'.gen_registers 15 = vm.gen_registers 15) :=
  ⟨{ vm with gen_registers := Function.update vm.gen_registers x ((vm.gen_registers x + b) % 256), reg_pc := (vm.reg_pc + 1) % 65536 },
    by simp [execute, hx],
    by simp [Function.update_same],
    rfl,
    fun hne => by simp [Function.update_noteq (Ne.symm hne)]⟩

/-- Witness for `c5_add_immediate` at x = 1, b = 255 on the fresh VM. -/
theorem c5_add_immediate_witness :
    ∃ vm', execute (.ADD 1 255) VM.new = some vm'
      ∧ vm'.gen_registers 1 = (VM.new.gen_registers 1 + 255) % 256
      ∧ vm'.reg_pc = (VM.new.reg_pc + 1) % 65536
      ∧ ((1 : Nat) ≠ 15 → vm'.gen_registers 15 = VM.new.gen_registers 15) :=
  c5_add_immediate VM.new 1 255 (by decide)

/-- Claim C6 (code_bug evidence): `LD F,V1` with V1 = 16 silently sets
I = 80, not the address `5 * (16 mod 16) = 0` of digit sprite 0 — `digit`
multiplies the full register value by 5 as a wrapping u8 and never masks
to the low nibble, so a digit-address operand outside 0..16 is neither
reduced to its low nibble nor rejected as a fault. -/
theorem c6_ld_f_failing_input :
    ((execute (.LD7 1) vmC6).map (fun v => v.reg_i) = some 80)
      ∧ 5 * (vmC6.gen_registers 1 % 16) = 0 ∧ (80 : Nat) ≠ 0 := by
  decide

/-- Claim C7: a key returned by `Keyboard::wait` is never one that was
already pressed in the baseline snapshot taken when `wait` was invoked: the
unblocking predicate demands a key in the current set absent from the
baseline, and the returned key is drawn from that difference. -/
theorem c7_wait_returns_new_key (baseline current : List Key) (k : Key)
    (h : waitResult baseline current = some k) :
    is_pressed baseline k = false ∧ is_pressed current k = true ∧
      waitUnblocked baseline current = true := by
  induction current with
  | nil => simp [waitResult, diffKeys] at h
  | cons a t ih =>
    by_cases hmem : is_pressed baseline a = true
    · have h' : waitResult baseline t = some k := by
        simpa [waitResult, diffKeys, hmem] using h
      obtain ⟨h1, h2, h3⟩ := ih h'
      refine ⟨h1, ?_, ?_⟩
      · simp [is_pressed, h2]
      · simpa [waitUnblocked, diffKeys, hmem] using h3
    · have hk : a = k := by
        simpa [waitResult, diffKeys, hmem] using h
      subst hk
      refine ⟨by simpa using hmem, ?_, ?_⟩
      · simp [is_pressed]
      · simp [waitUnblocked, diffKeys, hmem]

/-- Witness for `c7_wait_returns_new_key`: with baseline {K2} and current set
{K2, K4}, the returned key K4 was not in the baseline; and re-pressing K2
alone (current = {K2}) does not satisfy the wait predicate. -/
theorem c7_wait_returns_new_key_witness :
    (is_pressed [Key.Key2] Key.Key4 = false
      ∧ is_pressed [Key.Key2, Key.Key4] Key.Key4 = true
      ∧ waitUnblocked [Key.Key2] [Key.Key2, Key.Key4] = true)
      ∧ waitUnblocked [Key.Key2] [Key.Key2] = false :=
  ⟨c7_wait_returns_new_key [Key.Key2] [Key.Key2, Key.Key4] Key.Key4 (by decide),
   by decide⟩

/-- Claim C8: for each of the 16 keys, `from_num (to_num k) = k`. -/
theorem c8_key_roundtrip (k : Key) : Key.fromNum (Key.toNum k) = some k := by
  cases k <;> rfl

/-- Claim C9: when the destination of `ADD Vx,Vy` is VF itself (x = 0xF),
the final VF is not the documented carry flag: on a 9-bit overflow the
flag write (1) is overwritten by the stored sum, leaving
VF = (VF + Vy) mod 256; without overflow the stored sum is overwritten by
the flag write, leaving VF = 0. -/
theorem c9_add2_vf_destination (vm : VM) (y : Nat) (hy : y < 16) :
    ∃ vm', execute (.ADD2 15 y) vm = some vm'
      ∧ vm'.gen_registers 15 = (if 255 < vm.gen_registers 15 + vm.gen_registers y then (vm.gen_registers 15 + vm.gen_registers y) % 256 else 0)
      ∧ vm'.reg_pc = (vm.reg_pc + 1) % 65536 := by
  by_cases h : 255 < vm.gen_registers 15 + vm.gen_registers y
  · refine ⟨{ vm with gen_registers := Function.update (Function.update vm.gen_registers 15 1) 15 ((vm.gen_registers 15 + vm.gen_registers y) % 256), reg_pc := (vm.reg_pc + 1) % 65536 }, ?_, ?_, rfl⟩
    · simp [execute, hy, h]
    · simp [h, Function.update_same]
  · refine ⟨{ vm with gen_registers := Function.update (Function.update vm.gen_registers 15 ((vm.gen_registers 15 + vm.gen_registers y) % 256)) 15 0, reg_pc := (vm.reg_pc + 1) % 65536 }, ?_, ?_, rfl⟩
    · simp [execute, hy, h]
    · simp [h, Function.update_same]

/-- Witness for `c9_add2_vf_destination` on `vmC9` (VF = 200, V1 = 100:
overflowing sum 300, final VF = 44). -/
theorem c9_add2_vf_destination_witness :
    ∃ vm', execute (.ADD2 15 1) vmC9 = some vm'
      ∧ vm'.gen_registers 15 = (if 255 < vmC9.gen_registers 15 + vmC9.gen_registers 1 then (vmC9.gen_registers 15 + vmC9.gen_registers 1) % 256 else 0)
      ∧ vm'.reg_pc = (vmC9.reg_pc + 1) % 65536 :=
  c9_add2_vf_destination vmC9 1 (by decide)

/-- Claim C10: no instruction arm of `execute` writes to RAM — whenever a
step succeeds, the 4096-byte memory array of the result is exactly that of
the starting state (the instruction set has no register-dump, register-load
or BCD-store opcodes). -/
theorem c10_memory_invariant (instr : Instruction) (vm vm' : VM)
    (h : execute instr vm = some vm') : vm'.memory = vm.memory := by
  cases instr <;>
    simp only [execute] at h <;>
    (repeat' split at h) <;>
    first
      | exact Option.noConfusion h
      | (injection h with h2; subst h2; rfl)

/-- Witness for `c10_memory_invariant` at the `CLS` step on the fresh VM. -/
theorem c10_memory_invariant_witness :
    ({ VM.new with display := fun _ => 0, reg_pc := (VM.new.reg_pc + 1) % 65536 } : VM).memory = VM.new.memory :=
  c10_memory_invariant .CLS VM.new { VM.new with display := fun _ => 0, reg_pc := (VM.new.reg_pc + 1) % 65536 } rfl
